import Mathlib

/-!
Verification of the oo-deploy Ouroboros API client
(`src/oo_interface/client.py`) against its specification.

The embedding models the JSON values exchanged with the server, the
transport layer (one outcome per attempt), the retrying dispatcher
`_request`, the health check `check_health`, the polling loop
`wait_for_execution`, and the query-parameter construction of the
listing endpoints.
-/

namespace OoDeploy

/-- JSON values, as produced by `response.json()` / `json.loads`. -/
inductive Json where
  | str (s : String)
  | num (n : Int)
  | bool (b : Bool)
  | null
  | arr (xs : List Json)
  | obj (fields : List (String × Json))

/-- Python `dict` lookup on a parsed JSON object (`d[k]` / `d.get(k)`):
`json.loads` keeps the last occurrence of a duplicated key.  Returns
`none` when the value is not an object or the key is absent. -/
def Json.getField : Json → String → Option Json
  | .obj fields, k => fields.foldl (fun acc p => if p.1 = k then some p.2 else acc) none
  | _, _ => none

/-- Python comparison `v == s` of an optional JSON value against a string
literal: true exactly when the value is present and is that string. -/
def optIsStr (o : Option Json) (s : String) : Bool :=
  match o with
  | some (.str t) => t = s
  | _ => false

/-- Whether a JSON value is an object — a Python `dict` after
`json.loads`, the only values on which `.get` is defined. -/
def Json.isObj : Json → Bool
  | .obj _ => true
  | _ => false

/-- The body of an HTTP response received by the transport:
either empty (`response.content` is falsy and `response.json()` raises),
non-empty but not valid JSON (`response.json()` raises
`requests.exceptions.JSONDecodeError`), or valid JSON. -/
inductive Body where
  | empty
  | malformed (raw : String)
  | jsonBody (j : Json)

/-- The outcome of one call to `self.session.request(...)`: either a
`requests.exceptions.RequestException` is raised (connection error,
timeout, ...) or an HTTP response with a status code and a body is
returned. -/
inductive Transport where
  | exn (msg : String)
  | resp (status : Nat) (body : Body)

/-- Whether the transport attempt raised (no HTTP response received). -/
def Transport.isExn : Transport → Bool
  | .exn _ => true
  | .resp _ _ => false

/-- The message carried by the `requests.exceptions.JSONDecodeError`
that `response.json()` raises on an unparsable body.  Since requests
2.27 this exception is a subclass of `requests.exceptions.RequestException`. -/
def jsonDecodeErrorMessage : String := "Expecting value: line 1 column 1 (char 0)"

/-- The `APIError` exception of `client.py` (message, optional HTTP
status code, details dictionary).  The message is stored as the JSON
value Python would store (it is a string on every path of `_request`
except possibly the extracted error message, which is whatever value
the body held). -/
structure APIError where
  message : Json
  status_code : Option Nat
  details : Json

/-- Result of one `_request` call: the parsed JSON payload on success,
or the raised `APIError`. -/
inductive ReqResult where
  | ok (payload : Json)
  | apiError (e : APIError)

/-- A `NetworkError` in the spec's taxonomy: an `APIError` raised with
no status code (the `raise APIError(f"Network error: ...")` path). -/
def ReqResult.isNetworkError : ReqResult → Bool
  | .apiError e => e.status_code.isNone
  | _ => false

/-- An `ApplicationError` in the spec's taxonomy: an `APIError`
carrying the HTTP status code of an error response. -/
def ReqResult.isApplicationError (r : ReqResult) (code : Nat) : Bool :=
  match r with
  | .apiError e => e.status_code = some code
  | _ => false

/-- Error-message extraction of `_request` for a response with
`status_code >= 400` (lines 104-112 of `client.py`).  The inner
`try/except: pass` swallows every exception raised while parsing the
body or while evaluating `error_data['error'].get(...)`
(`AttributeError` when the `error` value is not a dict, `TypeError`
when the body itself is not a dict), leaving the generic message. -/
def extractMessage (status : Nat) (body : Body) : Json :=
  let generic := Json.str ("Request failed with status " ++ toString status)
  match body with
  | .jsonBody j =>
    match j with
    | .obj _ =>
      match j.getField "error" with
      | some ev =>
        match ev with
        | .obj _ => (ev.getField "message").getD generic
        | _ => generic
      | none =>
        match j.getField "message" with
        | some mv => mv
        | none => generic
    | _ => generic
  | _ => generic

/-- The outcome of a whole `_request` activation: the
result (returned payload or raised `APIError`), the number of transport
attempts performed, and the chronological list of back-off sleeps
(each entry the argument of one `time.sleep`). -/
structure RunResult where
  result : ReqResult
  attempts : Nat
  sleeps : List Nat

/-- `OuroborosClient._request` (lines 67-131 of `client.py`), with the
transport abstracted as the outcome `tr k` of the k-th attempt.

Control flow of the source, per attempt:
* the transport raises → if `retry_count < max_retries`, sleep
  `2 ** retry_count` and recurse with `retry_count + 1`, else raise
  `APIError("Network error: ...")` (no status code);
* response with `status >= 400` → extract the message; then evaluate
  `details=response.json() if response.content else {}`: an empty body
  gives `{}`, a JSON body gives the parsed value, and a non-empty
  unparsable body makes `response.json()` raise
  `requests.exceptions.JSONDecodeError` — a `RequestException`, caught
  by the retry handler; otherwise raise
  `APIError(message, status_code, details)` (an `APIError` is not a
  `RequestException`, so it propagates);
* response with `status < 400` → `return response.json()`: an
  unparsable or empty body again raises a `JSONDecodeError` that the
  retry handler catches.

The `try` block of the source either settles the call (a return, or an
`APIError` raise — `APIError` is not a `RequestException` and
propagates) or raises a `RequestException` caught by the single
`except` handler; `StepOutcome` records which. -/
inductive StepOutcome where
  | settled (r : ReqResult)
  | transient (msg : String)

/-- The `try` block of `_request` (lines 93-121) for one transport
outcome. -/
def attemptOutcome (t : Transport) : StepOutcome :=
  match t with
  | .exn msg => .transient msg
  | .resp status body =>
    if 400 ≤ status then
      match body with
      | .empty =>
        .settled (.apiError ⟨extractMessage status .empty, some status, .obj []⟩)
      | .jsonBody j =>
        .settled (.apiError ⟨extractMessage status (.jsonBody j), some status, j⟩)
      | .malformed _ => .transient jsonDecodeErrorMessage
    else
      match body with
      | .jsonBody j => .settled (.ok j)
      | _ => .transient jsonDecodeErrorMessage

/-- `_request` with the `except RequestException` handler (lines
123-131): the source guards the retry with
`retry_count < self.max_retries` and recurses with `retry_count + 1`;
here `budget` is the remaining retry allowance
`max_retries - retry_count`, so that guard is `budget > 0` and the
recursion is structural. -/
def requestAux (tr : Nat → Transport) (retryCount budget : Nat) : RunResult :=
  match attemptOutcome (tr retryCount) with
  | .settled r => { result := r, attempts := 1, sleeps := [] }
  | .transient msg =>
    match budget with
    | b + 1 =>
      let rest := requestAux tr (retryCount + 1) b
      { result := rest.result, attempts := rest.attempts + 1,
        sleeps := 2 ^ retryCount :: rest.sleeps }
    | 0 =>
      { result := .apiError ⟨.str ("Network error: " ++ msg), none, .obj []⟩,
        attempts := 1, sleeps := [] }

/-- A public `_request` call (`retry_count` starts at `0`, so the
remaining retry allowance is the full `max_retries`).  `method`,
`endpoint`, `data` and `params` are forwarded to the transport and do
not influence the retry logic, exactly as in the source. -/
def request (method endpoint : String) (data params : Option Json)
    (tr : Nat → Transport) (maxRetries : Nat) : RunResult :=
  requestAux tr 0 maxRetries

/-- The client's constructor state (`OuroborosClient.__init__`,
lines 44-65): the base URL is normalized with `rstrip('/')` before it
is stored. -/
structure OuroborosClient where
  api_base_url : String
  timeout : Nat
  max_retries : Nat

/-- Python `s.rstrip('/')`: remove every trailing `'/'` character. -/
def rstripSlashes (s : String) : String :=
  ⟨(s.data.reverse.dropWhile (fun c => c = '/')).reverse⟩

/-- `OuroborosClient.__init__`: `self.api_base_url = api_base_url.rstrip('/')`. -/
def clientInit (apiBaseUrl : String) (timeout maxRetries : Nat) : OuroborosClient :=
  ⟨rstripSlashes apiBaseUrl, timeout, maxRetries⟩

/-- Line 91 of `client.py`: `url = f"{self.api_base_url}{endpoint}"`. -/
def requestUrl (c : OuroborosClient) (endpoint : String) : String :=
  c.api_base_url ++ endpoint

/-- Result of a `check_health` call: either the function returns a
boolean, or the `response.get('status')` attribute access raises an
uncaught `AttributeError` because the parsed 2xx payload is not a
dict (`except APIError` does not catch it). -/
inductive HealthResult where
  | ret (b : Bool)
  | attributeError
deriving DecidableEq

/-- `OuroborosClient.check_health` (lines 137-148): `_request('GET',
'/health')`, then `response.get('status') == 'healthy'`; an `APIError`
from `_request` is caught and turned into `False`. -/
def check_health (tr : Nat → Transport) (maxRetries : Nat) : HealthResult :=
  match (request "GET" "/health" none none tr maxRetries).result with
  | .apiError _ => .ret false
  | .ok j =>
    match j with
    | .obj _ => .ret (optIsStr (j.getField "status") "healthy")
    | _ => .attributeError

/-- Message of the timeout `APIError` of `wait_for_execution`
(line 768): `f"Execution timeout after {max_wait} seconds"`. -/
def timeoutMessage (maxWait : Nat) : String :=
  "Execution timeout after " ++ toString maxWait ++ " seconds"

/-- Message of the failed-execution `APIError` (line 778):
`f"Execution failed: {status.get('error', 'Unknown error')}"`, with
`reasonText` the rendering of the extracted reason. -/
def failedMessage (reasonText : String) : String :=
  "Execution failed: " ++ reasonText

/-- Message of the cancelled-execution `APIError` (line 780). -/
def cancelledMessage : String := "Execution was cancelled"

/-- Outcome of a `wait_for_execution` call: the timeout `APIError`, a
normal return of the enrichment payload, the failed-execution
`APIError` (carrying the reason `status.get('error', 'Unknown
error')`), the cancelled-execution `APIError`, the uncaught
`AttributeError` raised by `status.get('status')` when a fetch
returns a non-dict payload (the loop has no `try/except`, so it
escapes to the caller), or exhaustion of the finite status oracle
(the real loop would keep polling). -/
inductive WaitOutcome where
  | timeout (message : String)
  | completedInfo (info : Json)
  | failedErr (reason : Json)
  | cancelledErr
  | attributeErr
  | exhausted

/-- Observable trace of one `wait_for_execution` call: its outcome,
the number of `get_execution_status` fetches, the number of
`get_execution_info` enrichment fetches, and the number of
`time.sleep(poll_interval)` calls performed. -/
structure WaitResult where
  outcome : WaitOutcome
  statusFetches : Nat
  infoFetches : Nat
  slept : Nat

/-- The loop of `OuroborosClient.wait_for_execution` (lines 763-783).

The clock model: `elapsed` is `time.time() - start_time`; only
`time.sleep(poll_interval)` advances it (status fetches are
instantaneous).  `statuses` is the sequence of payloads that
successive `get_execution_status` calls return, and `info` the payload
`get_execution_info` would return.  Each iteration first checks
`elapsed > max_wait`, then fetches the next status.  The fetched
payload is whatever `response.json()` produced: when it is a dict,
`status.get('status')` selects the branch — `completed` returns the
enrichment fetch, `failed` and `cancelled` raise, and any other value
of the `status` field (including a missing one) falls through to
`time.sleep(poll_interval)` and the next iteration; when it is not a
dict, `status.get('status')` at line 772 raises an `AttributeError`
that nothing in `wait_for_execution` catches (the same hazard
`check_health` has on its payload), ending the loop after that one
fetch with no sleep. -/
def waitAux (info : Json) (pollInterval maxWait : Nat) (statuses : List Json)
    (elapsed : Nat) : WaitResult :=
  if maxWait < elapsed then
    ⟨.timeout (timeoutMessage maxWait), 0, 0, 0⟩
  else
    match statuses with
    | [] => ⟨.exhausted, 0, 0, 0⟩
    | s :: rest =>
      match s with
      | .obj _ =>
        let st := s.getField "status"
        if optIsStr st "completed" then
          ⟨.completedInfo info, 1, 1, 0⟩
        else if optIsStr st "failed" then
          ⟨.failedErr ((s.getField "error").getD (.str "Unknown error")), 1, 0, 0⟩
        else if optIsStr st "cancelled" then
          ⟨.cancelledErr, 1, 0, 0⟩
        else
          let r := waitAux info pollInterval maxWait rest (elapsed + pollInterval)
          ⟨r.outcome, r.statusFetches + 1, r.infoFetches, r.slept + 1⟩
      | _ => ⟨.attributeErr, 1, 0, 0⟩

/-- A `wait_for_execution` call (elapsed time starts at `0`). -/
def wait_for_execution (info : Json) (statuses : List Json)
    (pollInterval maxWait : Nat) : WaitResult :=
  waitAux info pollInterval maxWait statuses 0

/-- Whether a status payload reports a terminal state
(`completed`, `failed` or `cancelled`). -/
def isTerminalStatus (s : Json) : Bool :=
  optIsStr (s.getField "status") "completed" ||
  optIsStr (s.getField "status") "failed" ||
  optIsStr (s.getField "status") "cancelled"

/-- The outcome `wait_for_execution` produces at a terminal status
payload (used to state the stopping theorem). -/
def terminalOutcome (info : Json) (s : Json) : WaitOutcome :=
  if optIsStr (s.getField "status") "completed" then .completedInfo info
  else if optIsStr (s.getField "status") "failed" then
    .failedErr ((s.getField "error").getD (.str "Unknown error"))
  else if optIsStr (s.getField "status") "cancelled" then .cancelledErr
  else .exhausted

/-- A query-parameter value: the dictionaries built by the listing
wrappers hold strings and integers. -/
inductive ParamValue where
  | str (s : String)
  | num (n : Int)

/-- The `params` dictionary built by `OuroborosClient.list_graphs`
(lines 191-198): always `limit` and `offset`; `category` when truthy
(a non-empty string); `tags` when truthy (a non-empty list), as
`','.join(tags)`. -/
def list_graphs_params (category : Option String)
    (tags : Option (List String)) (limit offset : Int) :
    List (String × ParamValue) :=
  let base := [("limit", ParamValue.num limit), ("offset", ParamValue.num offset)]
  let withCategory :=
    match category with
    | some c => if c = "" then base else base ++ [("category", ParamValue.str c)]
    | none => base
  match tags with
  | some ts =>
    if ts.isEmpty then withCategory
    else withCategory ++ [("tags", ParamValue.str (String.intercalate "," ts))]
  | none => withCategory

/-- The `params` dictionary built by `OuroborosClient.list_workflows`
(lines 268-278): always `limit`, `offset` and `status`; `category`,
`tags` (as `','.join(tags)`) and `search` when truthy. -/
def list_workflows_params (category : Option String)
    (tags : Option (List String)) (search : Option String)
    (status : String) (limit offset : Int) :
    List (String × ParamValue) :=
  let base := [("limit", ParamValue.num limit), ("offset", ParamValue.num offset),
               ("status", ParamValue.str status)]
  let withCategory :=
    match category with
    | some c => if c = "" then base else base ++ [("category", ParamValue.str c)]
    | none => base
  let withTags :=
    match tags with
    | some ts =>
      if ts.isEmpty then withCategory
      else withCategory ++ [("tags", ParamValue.str (String.intercalate "," ts))]
    | none => withCategory
  match search with
  | some q => if q = "" then withTags else withTags ++ [("search", ParamValue.str q)]
  | none => withTags

/-- Modelled from the spec: the error-message precedence as the spec
states it — `body.error.message` if present, else `body.message` if
present, else the generic `"Request failed with status <code>"`
(used to compare the spec's precedence with the source's extraction). -/
def specMessagePrecedence (status : Nat) (j : Json) : Json :=
  match (j.getField "error").bind (fun ev => ev.getField "message") with
  | some m => m
  | none =>
    match j.getField "message" with
    | some m => m
    | none => Json.str ("Request failed with status " ++ toString status)

/-- The corrected precedence actually implemented by `_request`: when
the `error` key is present, the result is `error.message` if `error`
is a dict containing `message` and the generic message otherwise —
the `message` key at the top level is only consulted when `error` is
absent. -/
def codeMessagePrecedence (status : Nat) (j : Json) : Json :=
  let generic := Json.str ("Request failed with status " ++ toString status)
  match j.getField "error" with
  | some (.obj ef) => ((Json.obj ef).getField "message").getD generic
  | some _ => generic
  | none => (j.getField "message").getD generic

/-! ## Helper lemmas about the dispatcher -/

/-- Every `_request` activation performs at least one transport attempt. -/
theorem requestAux_attempts_pos (tr : Nat → Transport) (retryCount budget : Nat) :
    1 ≤ (requestAux tr retryCount budget).attempts := by
  unfold requestAux
  rcases attemptOutcome (tr retryCount) with r | msg
  · simp
  · cases budget <;> simp

/-- A `_request` activation with remaining retry allowance `budget`
performs at most `budget + 1` transport attempts. -/
theorem requestAux_attempts_le (tr : Nat → Transport) (budget : Nat) :
    ∀ retryCount, (requestAux tr retryCount budget).attempts ≤ budget + 1 := by
  induction budget with
  | zero =>
    intro rc
    unfold requestAux
    rcases attemptOutcome (tr rc) with r | msg <;> simp
  | succ b ih =>
    intro rc
    unfold requestAux
    rcases attemptOutcome (tr rc) with r | msg
    · simp
    · simpa using ih (rc + 1)

/-- When every transport attempt raises a transient error, the
dispatcher uses its whole retry allowance (`budget + 1` attempts) and
raises the network-error `APIError` (no status code). -/
theorem requestAux_allExn (tr : Nat → Transport) (hexn : ∀ k, (tr k).isExn = true)
    (budget : Nat) :
    ∀ retryCount,
      (requestAux tr retryCount budget).attempts = budget + 1 ∧
      (requestAux tr retryCount budget).result.isNetworkError = true := by
  induction budget with
  | zero =>
    intro rc
    unfold requestAux
    rcases h : tr rc with msg | ⟨status, body⟩
    · simp [attemptOutcome, ReqResult.isNetworkError]
    · exact absurd (hexn rc) (by simp [h, Transport.isExn])
  | succ b ih =>
    intro rc
    unfold requestAux
    rcases h : tr rc with msg | ⟨status, body⟩
    · have := ih (rc + 1)
      simp [attemptOutcome, this.1, this.2]
    · exact absurd (hexn rc) (by simp [h, Transport.isExn])

/-- The back-off sleeps of a `_request` activation are exactly
`2 ^ (retryCount + k)` for the consecutive retries `k` it performs
(one sleep per retry; `attempts - 1` retries in total). -/
theorem requestAux_sleeps (tr : Nat → Transport) (budget : Nat) :
    ∀ retryCount,
      (requestAux tr retryCount budget).sleeps =
        (List.range ((requestAux tr retryCount budget).attempts - 1)).map
          (fun k => 2 ^ (retryCount + k)) := by
  induction budget with
  | zero =>
    intro rc
    unfold requestAux
    rcases attemptOutcome (tr rc) with r | msg <;> simp
  | succ b ih =>
    intro rc
    unfold requestAux
    rcases attemptOutcome (tr rc) with r | msg
    · simp
    · have hpos := requestAux_attempts_pos tr (rc + 1) b
      obtain ⟨m, hm⟩ : ∃ m, (requestAux tr (rc + 1) b).attempts = m + 1 :=
        ⟨(requestAux tr (rc + 1) b).attempts - 1, by omega⟩
      simp only [ih (rc + 1), hm, Nat.add_sub_cancel, List.range_succ_eq_map,
        List.map_cons, List.map_map]
      congr 1
      apply List.map_congr_left
      intro k _
      simp only [Function.comp_apply]
      congr 1
      omega

/-- Summing the geometric back-off series. -/
theorem sum_pow_two_range (n : Nat) :
    ((List.range n).map (fun k => 2 ^ k)).sum = 2 ^ n - 1 := by
  induction n with
  | zero => simp
  | succ m ih =>
    rw [List.range_succ, List.map_append, List.sum_append]
    simp [ih]
    have : 1 ≤ 2 ^ m := Nat.one_le_two_pow
    omega

/-! ## Helper lemmas about the poller -/

/-- `optIsStr` holds exactly on the matching string value. -/
theorem optIsStr_eq_true_iff (o : Option Json) (s : String) :
    optIsStr o s = true ↔ o = some (.str s) := by
  cases o with
  | none => simp [optIsStr]
  | some v => cases v <;> simp [optIsStr]

/-- Only an object can yield a field. -/
theorem isObj_of_getField_eq_some (s : Json) (k : String) (v : Json)
    (h : s.getField k = some v) : ∃ fields, s = .obj fields := by
  cases s with
  | obj fields => exact ⟨fields, rfl⟩
  | str t => simp [Json.getField] at h
  | num n => simp [Json.getField] at h
  | bool b => simp [Json.getField] at h
  | null => simp [Json.getField] at h
  | arr xs => simp [Json.getField] at h

/-- A payload reporting a terminal state is necessarily an object. -/
theorem isObj_of_terminalStatus (s : Json) (hs : isTerminalStatus s = true) :
    s.isObj = true := by
  cases s <;>
    simp [isTerminalStatus, Json.getField, optIsStr, Json.isObj] at hs ⊢

/-- A fetch returning a non-dict payload ends the loop at once with
the uncaught `AttributeError` from `status.get('status')`: one status
fetch, no enrichment fetch, no sleep. -/
theorem waitAux_attr_crash (info : Json) (p w : Nat) (s : Json) (rest : List Json)
    (elapsed : Nat) (hw : elapsed ≤ w) (hobj : s.isObj = false) :
    waitAux info p w (s :: rest) elapsed = ⟨.attributeErr, 1, 0, 0⟩ := by
  cases s with
  | obj fields => simp [Json.isObj] at hobj
  | str t => rw [waitAux.eq_def, if_neg (by omega)]
  | num n => rw [waitAux.eq_def, if_neg (by omega)]
  | bool b => rw [waitAux.eq_def, if_neg (by omega)]
  | null => rw [waitAux.eq_def, if_neg (by omega)]
  | arr xs => rw [waitAux.eq_def, if_neg (by omega)]

/-- Once the elapsed time exceeds the deadline, the next loop
iteration raises the timeout `APIError` before fetching anything. -/
theorem waitAux_timeout_now (info : Json) (p w : Nat) (statuses : List Json)
    (elapsed : Nat) (hw : w < elapsed) :
    waitAux info p w statuses elapsed = ⟨.timeout (timeoutMessage w), 0, 0, 0⟩ := by
  rw [waitAux.eq_def, if_pos hw]

/-- Within the deadline, a non-terminal object payload (any value of
the `status` field other than the three terminal strings, or a
missing field) is followed by one `time.sleep(poll_interval)` and
another iteration. -/
theorem waitAux_step (info : Json) (p w : Nat) (q : Json) (rest : List Json)
    (elapsed : Nat) (hobj : q.isObj = true) (hq : isTerminalStatus q = false)
    (hw : elapsed ≤ w) :
    waitAux info p w (q :: rest) elapsed =
      { outcome := (waitAux info p w rest (elapsed + p)).outcome,
        statusFetches := (waitAux info p w rest (elapsed + p)).statusFetches + 1,
        infoFetches := (waitAux info p w rest (elapsed + p)).infoFetches,
        slept := (waitAux info p w rest (elapsed + p)).slept + 1 } := by
  obtain ⟨⟨h1, h2⟩, h3⟩ :
      (optIsStr (q.getField "status") "completed" = false ∧
        optIsStr (q.getField "status") "failed" = false) ∧
      optIsStr (q.getField "status") "cancelled" = false := by
    simpa [isTerminalStatus] using hq
  cases q with
  | obj fields =>
    rw [waitAux.eq_def, if_neg (by omega)]
    simp [h1, h2, h3]
  | str t => simp [Json.isObj] at hobj
  | num n => simp [Json.isObj] at hobj
  | bool b => simp [Json.isObj] at hobj
  | null => simp [Json.isObj] at hobj
  | arr xs => simp [Json.isObj] at hobj

/-- Within the deadline, a terminal status stops the loop at once:
one status fetch, one enrichment fetch exactly when the state is
`completed`, no further sleep. -/
theorem waitAux_terminal_head (info : Json) (p w : Nat) (s : Json)
    (rest : List Json) (elapsed : Nat) (hw : elapsed ≤ w)
    (hs : isTerminalStatus s = true) :
    waitAux info p w (s :: rest) elapsed =
      ⟨terminalOutcome info s, 1,
       if optIsStr (s.getField "status") "completed" then 1 else 0, 0⟩ := by
  have hobj := isObj_of_terminalStatus s hs
  cases s with
  | obj fields =>
    rw [waitAux.eq_def, if_neg (by omega)]
    rcases hb : optIsStr ((Json.obj fields).getField "status") "completed" with _ | _
    · rcases hf : optIsStr ((Json.obj fields).getField "status") "failed" with _ | _
      · rcases hc : optIsStr ((Json.obj fields).getField "status") "cancelled" with _ | _
        · simp [isTerminalStatus, hb, hf, hc] at hs
        · simp [terminalOutcome, hb, hf, hc]
      · simp [terminalOutcome, hb, hf]
    · simp [terminalOutcome, hb]
  | str t => simp [Json.isObj] at hobj
  | num n => simp [Json.isObj] at hobj
  | bool b => simp [Json.isObj] at hobj
  | null => simp [Json.isObj] at hobj
  | arr xs => simp [Json.isObj] at hobj

/-- Polling consumes a prefix of non-terminal object payloads one by
one, as long as each iteration starts within the deadline,
accumulating one fetch and one sleep per status. -/
theorem waitAux_prefix (info : Json) (p w : Nat) (pre : List Json) :
    ∀ (rest : List Json) (elapsed : Nat),
      pre.all (fun x => x.isObj && !isTerminalStatus x) = true →
      (∀ j, j < pre.length → elapsed + j * p ≤ w) →
      waitAux info p w (pre ++ rest) elapsed =
        { outcome := (waitAux info p w rest (elapsed + pre.length * p)).outcome,
          statusFetches :=
            (waitAux info p w rest (elapsed + pre.length * p)).statusFetches
              + pre.length,
          infoFetches := (waitAux info p w rest (elapsed + pre.length * p)).infoFetches,
          slept := (waitAux info p w rest (elapsed + pre.length * p)).slept
              + pre.length } := by
  induction pre with
  | nil => intro rest elapsed _ _; simp
  | cons x pre2 ih =>
    intro rest elapsed hall hcheck
    obtain ⟨⟨hxo, hx⟩, hall2⟩ :
        (Json.isObj x = true ∧ (!isTerminalStatus x) = true) ∧
        pre2.all (fun y => y.isObj && !isTerminalStatus y) = true := by
      simpa [List.all_cons, Bool.and_eq_true] using hall
    have hx2 : isTerminalStatus x = false := by
      simpa using hx
    have h0 : elapsed ≤ w := by
      have := hcheck 0 (by simp)
      simpa using this
    have hcheck2 : ∀ j, j < pre2.length → (elapsed + p) + j * p ≤ w := by
      intro j hj
      have := hcheck (j + 1) (by simpa using Nat.succ_lt_succ hj)
      rw [Nat.succ_mul] at this
      omega
    rw [List.cons_append, waitAux_step info p w x (pre2 ++ rest) elapsed hxo hx2 h0,
      ih rest (elapsed + p) hall2 hcheck2]
    have harith : elapsed + p + pre2.length * p = elapsed + (pre2.length + 1) * p := by
      ring
    rw [harith]
    simp only [List.length_cons, WaitResult.mk.injEq, eq_self_iff_true, true_and]
    exact ⟨by omega, by omega⟩

/-- The failed-execution message never coincides with a timeout
message (they differ at the 11th character). -/
theorem failedMessage_ne_timeoutMessage (r : String) (w : Nat) :
    failedMessage r ≠ timeoutMessage w := by
  intro h
  have hd := congrArg String.data h
  simp only [failedMessage, timeoutMessage, String.data_append] at hd
  have h10 := congrArg (fun l => l[10]?) hd
  rw [List.append_assoc] at h10
  simp [List.getElem?_append] at h10

/-- The cancelled-execution message never coincides with a timeout
message. -/
theorem cancelledMessage_ne_timeoutMessage (w : Nat) :
    cancelledMessage ≠ timeoutMessage w := by
  intro h
  have hd := congrArg String.data h
  simp only [cancelledMessage, timeoutMessage, String.data_append] at hd
  have h10 := congrArg (fun l => l[10]?) hd
  rw [List.append_assoc] at h10
  simp [List.getElem?_append] at h10

/-! ## Claim theorems -/

/-- C1: for every method, path, body and query, if the transport
raises a transient error on every attempt, then `_request` with
`max_retries = N` performs exactly `N + 1` transport attempts and
terminates with a `NetworkError` failure (an `APIError` with
`status_code = None`); and no run of `_request` (any transport
behaviour `trAny`) ever makes more than `max_retries + 1` transport
attempts. -/
theorem C1_retry_ceiling (method endpoint : String) (data params : Option Json)
    (tr trAny : Nat → Transport) (N : Nat) (hexn : ∀ k, (tr k).isExn = true) :
    (request method endpoint data params tr N).attempts = N + 1 ∧
    (request method endpoint data params tr N).result.isNetworkError = true ∧
    (request method endpoint data params trAny N).attempts ≤ N + 1 := by
  refine ⟨(requestAux_allExn tr hexn N 0).1, (requestAux_allExn tr hexn N 0).2, ?_⟩
  exact requestAux_attempts_le trAny N 0

/-- Witness for C1 at a transport that always raises a connection
error, with `max_retries = 3`. -/
theorem C1_retry_ceiling_witness :
    (request "GET" "/health" none none (fun _ => .exn "conn refused") 3).attempts
      = 3 + 1 ∧
    (request "GET" "/health" none none
        (fun _ => .exn "conn refused") 3).result.isNetworkError = true ∧
    (request "GET" "/health" none none
        (fun _ => .resp 200 (.jsonBody .null)) 3).attempts ≤ 3 + 1 :=
  C1_retry_ceiling "GET" "/health" none none _ _ 3 (fun _ => rfl)

/-- C2 (divergence witness): the claim's own example holds for a 404
whose body is empty or valid JSON — exactly one attempt and an
`ApplicationError` with `status_code = 404` — but a 404 whose body is
non-empty and unparsable is retried: building the `details` argument
re-runs `response.json()`, whose `JSONDecodeError` is a
`RequestException`, so with `max_retries = 1` the dispatcher makes two
transport attempts and ends in the network-error `APIError` with no
status code, contradicting "the error path is never retried". -/
theorem C2_http_error_not_retried_divergence :
    ((request "GET" "/graphs/x" none none
        (fun _ => .resp 404 .empty) 3).attempts = 1 ∧
     (request "GET" "/graphs/x" none none
        (fun _ => .resp 404 .empty) 3).result.isApplicationError 404 = true) ∧
    ((request "GET" "/graphs/x" none none
        (fun _ => .resp 404 (.jsonBody (.obj [("message", .str "not found")]))) 3).attempts
        = 1 ∧
     (request "GET" "/graphs/x" none none
        (fun _ => .resp 404 (.jsonBody (.obj [("message", .str "not found")]))) 3).result.isApplicationError
        404 = true) ∧
    ((request "GET" "/graphs/x" none none
        (fun _ => .resp 404 (.malformed "<html>Not Found</html>")) 1).attempts = 2 ∧
     (request "GET" "/graphs/x" none none
        (fun _ => .resp 404 (.malformed "<html>Not Found</html>")) 1).result.isNetworkError
        = true) :=
  ⟨⟨rfl, rfl⟩, ⟨rfl, rfl⟩, ⟨rfl, rfl⟩⟩

/-- C3 (divergence witness): a 2xx response whose body fails to parse
as JSON does fail hard (the run ends in an `APIError`, never in an
empty or partial success payload), but the parse failure IS treated as
a retryable transient error: `response.json()` raises a
`JSONDecodeError`, a `RequestException` subclass, so with
`max_retries = 1` the dispatcher makes two transport attempts and then
raises the network-error `APIError` (`status_code = None`) rather than
a distinct malformed-response failure. -/
theorem C3_malformed_2xx_divergence :
    (request "GET" "/graphs" none none
        (fun _ => .resp 200 (.malformed "oops")) 1).attempts = 2 ∧
    (request "GET" "/graphs" none none
        (fun _ => .resp 200 (.malformed "oops")) 1).result.isNetworkError = true ∧
    (request "GET" "/graphs" none none
        (fun _ => .resp 200 (.malformed "oops")) 1).result
      = .apiError ⟨.str ("Network error: " ++ jsonDecodeErrorMessage), none, .obj []⟩ :=
  ⟨rfl, rfl, rfl⟩

/-- C4 (counterexample): for the 400-response body
`{"error": {}, "message": "oops"}` the claimed precedence
(`body.error.message` if present, else `body.message`) yields
`"oops"`, but the code yields the generic message: when the `error`
key is present, `error_data['error'].get('message', error_message)`
keeps the generic default and the `elif 'message'` branch is never
consulted. -/
theorem C4_precedence_counterexample :
    specMessagePrecedence 400 (.obj [("error", .obj []), ("message", .str "oops")])
      = .str "oops" ∧
    extractMessage 400 (.jsonBody (.obj [("error", .obj []), ("message", .str "oops")]))
      = .str "Request failed with status 400" ∧
    extractMessage 400 (.jsonBody (.obj [("error", .obj []), ("message", .str "oops")]))
      ≠ specMessagePrecedence 400 (.obj [("error", .obj []), ("message", .str "oops")]) := by
  refine ⟨rfl, rfl, ?_⟩
  intro h
  have h2 : Json.str "Request failed with status 400" = Json.str "oops" := h
  injection h2 with h3
  exact absurd h3 (by decide)

/-- C4 (amended): the extracted message is `body.error.message` when
the `error` key maps to an object that contains `message`; the generic
message when the `error` key is present in any other form; otherwise
`body.message` if present; otherwise the generic
`"Request failed with status <code>"` — and a response whose body is
empty or unparsable always gets the generic message.  The claim's
three examples hold as stated. -/
theorem C4_precedence_amended (status : Nat) (j : Json) (raw : String) :
    extractMessage status (.jsonBody j) = codeMessagePrecedence status j ∧
    extractMessage status .empty
      = .str ("Request failed with status " ++ toString status) ∧
    extractMessage status (.malformed raw)
      = .str ("Request failed with status " ++ toString status) ∧
    extractMessage 400 (.jsonBody (.obj [("error", .obj [("message", .str "bad field")])]))
      = .str "bad field" ∧
    extractMessage 400 (.jsonBody (.obj [("message", .str "oops")])) = .str "oops" ∧
    extractMessage 400 .empty = .str "Request failed with status 400" := by
  refine ⟨?_, rfl, rfl, rfl, rfl, rfl⟩
  cases j with
  | obj fields =>
    simp only [extractMessage, codeMessagePrecedence]
    rcases hf : (Json.obj fields).getField "error" with _ | ev
    · rcases hm : (Json.obj fields).getField "message" with _ | mv <;> simp [hf, hm]
    · rcases ev with s | n | b | _ | xs | efields <;> simp [hf]
  | str s => rfl
  | num n => rfl
  | bool b => rfl
  | null => rfl
  | arr xs => rfl

/-- C5: every retry `k` (0-indexed) of a `_request` run is preceded by
a sleep of exactly `2 ^ k` time units: the chronological sleep list of
any run is `[2^0, 2^1, ...]`, one entry per retry performed, so the
accumulated delay is `2 ^ retries - 1`; in particular a run that
exhausts 3 retries sleeps `1 + 2 + 4 = 7` units. -/
theorem C5_backoff (method endpoint : String) (data params : Option Json)
    (tr : Nat → Transport) (N : Nat) :
    (request method endpoint data params tr N).sleeps =
      (List.range ((request method endpoint data params tr N).attempts - 1)).map
        (fun k => 2 ^ k) ∧
    (request method endpoint data params tr N).sleeps.sum =
      2 ^ ((request method endpoint data params tr N).attempts - 1) - 1 ∧
    (request "POST" "/workflows/w/execute" none none
        (fun _ => .exn "timed out") 3).sleeps = [1, 2, 4] ∧
    (request "POST" "/workflows/w/execute" none none
        (fun _ => .exn "timed out") 3).sleeps.sum = 7 := by
  have h := requestAux_sleeps tr N 0
  simp only [Nat.zero_add] at h
  refine ⟨h, ?_, rfl, rfl⟩
  rw [request] at *
  rw [h, sum_pow_two_range]

/-- C6 (counterexample): the claim is not true for every sequence of
fetched statuses.  A fetch whose payload is not a dict — here the
JSON value `null`, followed by a `completed` status the claim says
would be reached — is neither a terminal state nor past the deadline,
yet the loop does not sleep and poll again: `status.get('status')`
raises an uncaught `AttributeError` after the first fetch (no sleep,
no further poll), an exit distinct from the timeout error. -/
theorem C6_polling_counterexample :
    isTerminalStatus Json.null = false ∧
    wait_for_execution (Json.obj [("detail", .str "full")])
        [Json.null, Json.obj [("status", .str "completed")]] 5 3600 =
      ⟨.attributeErr, 1, 0, 0⟩ ∧
    wait_for_execution (Json.obj [("detail", .str "full")])
        [Json.null, Json.obj [("status", .str "completed")]] 5 3600 ≠
      ⟨.completedInfo (Json.obj [("detail", .str "full")]), 2, 1, 1⟩ ∧
    WaitOutcome.attributeErr ≠ .timeout (timeoutMessage 3600) :=
  ⟨rfl, rfl,
   fun h => absurd (congrArg WaitResult.statusFetches h) (by decide),
   fun h => nomatch h⟩

/-- C6 (amended): for every sequence of dict payloads reported by
successive status fetches, `wait_for_execution` stops polling exactly
when a terminal state (`completed`, `failed`, `cancelled`) is
observed or the elapsed time exceeds `max_wait` (raising the timeout
error), whichever happens first; any other value of the `status`
field — including one outside the known vocabulary such as
`"queued"` — leads to a `poll_interval` sleep and another poll.  A
fetch returning a non-dict payload instead ends the loop at once with
an uncaught `AttributeError` from `status.get('status')`.
Part one: a run whose first terminal status is reachable within the
deadline stops right there (one fetch per earlier status, one sleep
each, then the terminal outcome).  Part two: a run whose deadline
trips first stops with the timeout error after exactly the fetches
whose deadline check passed.  Part three: the one-step behaviour on
any non-terminal dict payload.  Part four: the `AttributeError` exit
on a non-dict payload. -/
theorem C6_polling_stop_amended :
    (∀ (info : Json) (p w : Nat) (pre : List Json) (s : Json) (rest : List Json),
      pre.all (fun x => x.isObj && !isTerminalStatus x) = true →
      isTerminalStatus s = true →
      pre.length * p ≤ w →
      wait_for_execution info (pre ++ s :: rest) p w =
        ⟨terminalOutcome info s, pre.length + 1,
         if optIsStr (s.getField "status") "completed" then 1 else 0, pre.length⟩) ∧
    (∀ (info : Json) (p w : Nat) (pre rest : List Json),
      pre.all (fun x => x.isObj && !isTerminalStatus x) = true →
      (∀ j, j < pre.length → j * p ≤ w) →
      w < pre.length * p →
      wait_for_execution info (pre ++ rest) p w =
        ⟨.timeout (timeoutMessage w), pre.length, 0, pre.length⟩) ∧
    (∀ (info : Json) (p w : Nat) (q : Json) (rest : List Json) (elapsed : Nat),
      q.isObj = true →
      isTerminalStatus q = false →
      elapsed ≤ w →
      waitAux info p w (q :: rest) elapsed =
        ⟨(waitAux info p w rest (elapsed + p)).outcome,
         (waitAux info p w rest (elapsed + p)).statusFetches + 1,
         (waitAux info p w rest (elapsed + p)).infoFetches,
         (waitAux info p w rest (elapsed + p)).slept + 1⟩) ∧
    (∀ (info : Json) (p w : Nat) (s : Json) (rest : List Json) (elapsed : Nat),
      s.isObj = false →
      elapsed ≤ w →
      waitAux info p w (s :: rest) elapsed = ⟨.attributeErr, 1, 0, 0⟩) := by
  refine ⟨?_, ?_, ?_, ?_⟩
  · intro info p w pre s rest hall hterm hdl
    have hcheck : ∀ j, j < pre.length → 0 + j * p ≤ w := by
      intro j hj
      have : j * p ≤ pre.length * p := Nat.mul_le_mul_right p (Nat.le_of_lt hj)
      omega
    rw [wait_for_execution, waitAux_prefix info p w pre (s :: rest) 0 hall hcheck,
      waitAux_terminal_head info p w s rest (0 + pre.length * p) (by omega) hterm]
    simp only [WaitResult.mk.injEq, eq_self_iff_true, true_and]
    exact ⟨by omega, by omega⟩
  · intro info p w pre rest hall hcheck hdl
    have hcheck0 : ∀ j, j < pre.length → 0 + j * p ≤ w := by
      intro j hj
      have := hcheck j hj
      omega
    rw [wait_for_execution, waitAux_prefix info p w pre rest 0 hall hcheck0,
      waitAux_timeout_now info p w rest (0 + pre.length * p) (by omega)]
    simp
  · intro info p w q rest elapsed hobj hq hw
    exact waitAux_step info p w q rest elapsed hobj hq hw
  · intro info p w s rest elapsed hobj hw
    exact waitAux_attr_crash info p w s rest elapsed hw hobj

/-- Witness for C6's amended statement: a `running`/`queued` prefix
followed by `completed` stops at the third fetch with one enrichment
call; a `running`-only sequence with `poll_interval = 10`,
`max_wait = 5` times out after one fetch; a `queued` status (outside
the known vocabulary) is polled past; a non-dict payload crashes the
loop. -/
theorem C6_polling_stop_amended_witness :
    wait_for_execution (Json.obj [("detail", .str "full")])
        [Json.obj [("status", .str "running")],
         Json.obj [("status", .str "queued")],
         Json.obj [("status", .str "completed")]] 5 3600 =
      ⟨.completedInfo (Json.obj [("detail", .str "full")]), 3, 1, 2⟩ ∧
    wait_for_execution (Json.obj [("detail", .str "full")])
        [Json.obj [("status", .str "running")]] 10 5 =
      ⟨.timeout "Execution timeout after 5 seconds", 1, 0, 1⟩ ∧
    waitAux (Json.obj [("detail", .str "full")]) 5 3600
        [Json.obj [("status", .str "queued")]] 0 =
      ⟨.exhausted, 1, 0, 1⟩ ∧
    waitAux (Json.obj [("detail", .str "full")]) 5 3600 [.arr []] 0 =
      ⟨.attributeErr, 1, 0, 0⟩ :=
  ⟨C6_polling_stop_amended.1 (Json.obj [("detail", .str "full")]) 5 3600
      [Json.obj [("status", .str "running")], Json.obj [("status", .str "queued")]]
      (Json.obj [("status", .str "completed")]) [] rfl rfl (by decide),
   C6_polling_stop_amended.2.1 (Json.obj [("detail", .str "full")]) 10 5
      [Json.obj [("status", .str "running")]] [] rfl (by decide) (by decide),
   C6_polling_stop_amended.2.2.1 (Json.obj [("detail", .str "full")]) 5 3600
      (Json.obj [("status", .str "queued")]) [] 0 rfl rfl (by decide),
   C6_polling_stop_amended.2.2.2 (Json.obj [("detail", .str "full")]) 5 3600
      (.arr []) [] 0 rfl (by decide)⟩

/-- C7: within the deadline, a terminal status maps to its distinct
outcome — `completed` performs exactly one additional enrichment
fetch and returns its payload; `failed` raises the operation-failed
`APIError` carrying `status.get('error', 'Unknown error')`;
`cancelled` raises the operation-cancelled `APIError` — and each of
these is distinguished from the deadline-timeout error: the failed
and cancelled messages never equal a timeout message, and a completed
return is no timeout outcome at all. -/
theorem C7_terminal_outcomes (info : Json) (p w : Nat) (s : Json)
    (rest : List Json) (elapsed : Nat) (reasonText otherMessage : String)
    (hw : elapsed ≤ w) :
    (optIsStr (s.getField "status") "completed" = true →
      waitAux info p w (s :: rest) elapsed = ⟨.completedInfo info, 1, 1, 0⟩) ∧
    (optIsStr (s.getField "status") "failed" = true →
      waitAux info p w (s :: rest) elapsed =
        ⟨.failedErr ((s.getField "error").getD (.str "Unknown error")), 1, 0, 0⟩) ∧
    (optIsStr (s.getField "status") "cancelled" = true →
      waitAux info p w (s :: rest) elapsed = ⟨.cancelledErr, 1, 0, 0⟩) ∧
    failedMessage reasonText ≠ timeoutMessage w ∧
    cancelledMessage ≠ timeoutMessage w ∧
    (WaitOutcome.completedInfo info ≠ .timeout otherMessage) := by
  refine ⟨?_, ?_, ?_, failedMessage_ne_timeoutMessage reasonText w,
    cancelledMessage_ne_timeoutMessage w, fun h => nomatch h⟩
  · intro h
    have hst := (optIsStr_eq_true_iff _ _).mp h
    obtain ⟨fields, rfl⟩ := isObj_of_getField_eq_some s "status" _ hst
    rw [waitAux.eq_def, if_neg (by omega)]
    simp [hst, optIsStr]
  · intro h
    have hst := (optIsStr_eq_true_iff _ _).mp h
    obtain ⟨fields, rfl⟩ := isObj_of_getField_eq_some s "status" _ hst
    rw [waitAux.eq_def, if_neg (by omega)]
    simp [hst, optIsStr]
  · intro h
    have hst := (optIsStr_eq_true_iff _ _).mp h
    obtain ⟨fields, rfl⟩ := isObj_of_getField_eq_some s "status" _ hst
    rw [waitAux.eq_def, if_neg (by omega)]
    simp [hst, optIsStr]

/-- Witness for C7 at the three terminal statuses. -/
theorem C7_terminal_outcomes_witness :
    waitAux (Json.obj [("detail", .str "full")]) 5 3600
        [Json.obj [("status", .str "completed")]] 0 =
      ⟨.completedInfo (Json.obj [("detail", .str "full")]), 1, 1, 0⟩ ∧
    waitAux (Json.obj [("detail", .str "full")]) 5 3600
        [Json.obj [("status", .str "failed"), ("error", .str "boom")]] 0 =
      ⟨.failedErr (.str "boom"), 1, 0, 0⟩ ∧
    waitAux (Json.obj [("detail", .str "full")]) 5 3600
        [Json.obj [("status", .str "cancelled")]] 0 =
      ⟨.cancelledErr, 1, 0, 0⟩ ∧
    failedMessage "boom" ≠ timeoutMessage 3600 ∧
    cancelledMessage ≠ timeoutMessage 3600 :=
  ⟨(C7_terminal_outcomes (Json.obj [("detail", .str "full")]) 5 3600
      (Json.obj [("status", .str "completed")]) [] 0 "boom" "m" (by decide)).1 rfl,
   (C7_terminal_outcomes (Json.obj [("detail", .str "full")]) 5 3600
      (Json.obj [("status", .str "failed"), ("error", .str "boom")]) [] 0 "boom" "m"
      (by decide)).2.1 rfl,
   (C7_terminal_outcomes (Json.obj [("detail", .str "full")]) 5 3600
      (Json.obj [("status", .str "cancelled")]) [] 0 "boom" "m" (by decide)).2.2.1 rfl,
   (C7_terminal_outcomes (Json.obj [("detail", .str "full")]) 5 3600
      (Json.obj [("status", .str "cancelled")]) [] 0 "boom" "m" (by decide)).2.2.2.1,
   (C7_terminal_outcomes (Json.obj [("detail", .str "full")]) 5 3600
      (Json.obj [("status", .str "cancelled")]) [] 0 "boom" "m" (by decide)).2.2.2.2.1⟩

/-- C8: a non-empty tag list passed to `list_graphs` or
`list_workflows` is serialized into the `tags` query parameter as the
comma-joined concatenation of its elements; `["a","b","c"]` becomes
the literal string `"a,b,c"`. -/
theorem C8_tags_comma_join (tags : List String) (category search : Option String)
    (status : String) (limit offset : Int) (htags : tags ≠ []) :
    (list_graphs_params category (some tags) limit offset).lookup "tags"
      = some (.str (String.intercalate "," tags)) ∧
    (list_workflows_params category (some tags) search status limit offset).lookup "tags"
      = some (.str (String.intercalate "," tags)) ∧
    String.intercalate "," ["a", "b", "c"] = "a,b,c" := by
  have hne : tags.isEmpty = false := by
    cases tags with
    | nil => exact absurd rfl htags
    | cons a l => rfl
  refine ⟨?_, ?_, rfl⟩
  · rcases category with _ | c
    · simp [list_graphs_params, hne, List.lookup]
    · by_cases hc : c = "" <;> simp [list_graphs_params, hne, hc, List.lookup]
  · rcases category with _ | c <;> rcases search with _ | q
    · simp [list_workflows_params, hne, List.lookup]
    · by_cases hq : q = "" <;> simp [list_workflows_params, hne, hq, List.lookup]
    · by_cases hc : c = "" <;> simp [list_workflows_params, hne, hc, List.lookup]
    · by_cases hc : c = "" <;> by_cases hq : q = "" <;>
        simp [list_workflows_params, hne, hc, hq, List.lookup]

/-- Witness for C8 at `tags = ["a","b","c"]`. -/
theorem C8_tags_comma_join_witness :
    (list_graphs_params none (some ["a", "b", "c"]) 100 0).lookup "tags"
      = some (.str "a,b,c") ∧
    (list_workflows_params none (some ["a", "b", "c"]) none "active" 50 0).lookup "tags"
      = some (.str "a,b,c") ∧
    String.intercalate "," ["a", "b", "c"] = "a,b,c" :=
  C8_tags_comma_join ["a", "b", "c"] none none "active" 100 0 (by decide)

/-- Dropping leading slashes from a reversed-data prefix. -/
theorem dropWhile_slash_replicate (n : Nat) (l : List Char) :
    List.dropWhile (fun c => c = '/') (List.replicate n '/' ++ l)
      = List.dropWhile (fun c => c = '/') l := by
  induction n with
  | zero => rfl
  | succ m ih =>
    rw [List.replicate_succ, List.cons_append, List.dropWhile_cons_of_pos (by simp)]
    exact ih

/-- `rstrip('/')` erases any block of trailing slashes. -/
theorem rstripSlashes_append_slashes (b : String) (n : Nat) :
    rstripSlashes (b ++ ⟨List.replicate n '/'⟩) = rstripSlashes b := by
  simp only [rstripSlashes, String.data_append]
  rw [List.reverse_append, List.reverse_replicate, dropWhile_slash_replicate]

/-- C9: clients constructed from a base URL `b` and from `b` followed
by any number of trailing `'/'` characters issue requests to the
identical full URL for every endpoint: `__init__` normalizes the base
URL with `rstrip('/')` before it is ever concatenated with an
endpoint path. -/
theorem C9_base_url_normalization (b e : String) (n timeout maxRetries : Nat) :
    requestUrl (clientInit (b ++ ⟨List.replicate n '/'⟩) timeout maxRetries) e
      = requestUrl (clientInit b timeout maxRetries) e := by
  simp only [requestUrl, clientInit, rstripSlashes_append_slashes]

/-- C10 (counterexample): `check_health` is not total over API
outcomes — a 2xx `/health` response whose JSON payload is a non-dict
(here the array `[1]`) makes `response.get('status')` raise an
`AttributeError`, which `except APIError` does not catch, so the call
neither returns `True` nor `False` although the status field is
absent. -/
theorem C10_check_health_counterexample :
    check_health (fun _ => .resp 200 (.jsonBody (.arr [.num 1]))) 3
      = .attributeError ∧
    HealthResult.attributeError ≠ .ret false ∧
    HealthResult.attributeError ≠ .ret true :=
  ⟨rfl, by decide, by decide⟩

/-- C10 (amended): `check_health` never propagates an `APIError` — any
`APIError` from the `/health` request yields `False` — and for a
successful request whose payload is a JSON object it returns `True`
exactly when the object's `status` field equals `"healthy"` (returning
`False` when the field is absent or different); totality fails only
for a successful non-object payload, which raises `AttributeError`. -/
theorem C10_check_health_amended (tr : Nat → Transport) (N : Nat) :
    (∀ e, (request "GET" "/health" none none tr N).result = .apiError e →
      check_health tr N = .ret false) ∧
    (∀ fields, (request "GET" "/health" none none tr N).result = .ok (.obj fields) →
      check_health tr N =
        .ret (optIsStr (Json.getField (.obj fields) "status") "healthy")) ∧
    (check_health tr N = .ret true ↔
      ∃ fields, (request "GET" "/health" none none tr N).result = .ok (.obj fields) ∧
        Json.getField (.obj fields) "status" = some (.str "healthy")) := by
  refine ⟨?_, ?_, ?_⟩
  · intro e he
    simp [check_health, he]
  · intro fields hf
    simp [check_health, hf]
  · constructor
    · intro h
      rcases hr : (request "GET" "/health" none none tr N).result with j | e
      · cases j with
        | obj fields =>
          refine ⟨fields, rfl, ?_⟩
          have hb : optIsStr (Json.getField (.obj fields) "status") "healthy" = true := by
            simpa [check_health, hr] using h
          exact (optIsStr_eq_true_iff _ _).mp hb
        | str s => simp [check_health, hr] at h
        | num n => simp [check_health, hr] at h
        | bool b => simp [check_health, hr] at h
        | null => simp [check_health, hr] at h
        | arr xs => simp [check_health, hr] at h
      · simp [check_health, hr] at h
    · rintro ⟨fields, hf, hs⟩
      have hb : optIsStr (Json.getField (.obj fields) "status") "healthy" = true :=
        (optIsStr_eq_true_iff _ _).mpr hs
      simp [check_health, hf, hb]

/-- Witness for C10's amended statement: a healthy payload yields
`True`, a transport failure yields `False`. -/
theorem C10_check_health_amended_witness :
    check_health (fun _ => .resp 200 (.jsonBody (.obj [("status", .str "healthy")]))) 3
      = .ret true ∧
    check_health (fun _ => .exn "connection refused") 3 = .ret false :=
  ⟨(C10_check_health_amended
      (fun _ => .resp 200 (.jsonBody (.obj [("status", .str "healthy")]))) 3).2.2.mpr
      ⟨[("status", .str "healthy")], rfl, rfl⟩,
   (C10_check_health_amended (fun _ => .exn "connection refused") 3).1
      ⟨.str ("Network error: " ++ "connection refused"), none, .obj []⟩ rfl⟩

end OoDeploy
